import Mathlib

/-!
Verification of the trend-monitor scoring and collection engine.

Shallow embedding conventions:
* Python floats are modelled as exact rationals (`ℚ`); every claim checked
  here compares two expressions that pass through the same operations, so
  binary rounding never changes a verdict (the weight sums `0.33+0.33+0.34`
  and `0.33+0.34` are exact in binary64 as well).
* `math.log10` and `math.sqrt`-based `statistics.stdev` are transcendental;
  the embedding is parametric in a function `lg : ℤ → ℚ` (resp. `sq : ℚ → ℚ`)
  and theorems assume only the properties of `log10`/`sqrt` actually used
  (`log10 n ≥ 0` for `n ≥ 1`).  `log10P` below agrees with `math.log10`
  exactly at powers of ten and is used to evaluate at such inputs.
* `round(x, 2)` is modelled by `pyRound2`; Python uses round-half-to-even,
  the model rounds half up, and every concrete input below is chosen away
  from ties so the two agree there.
-/

namespace TrendMonitor

/-! Constants from `app/scoring/constants.py`. -/

def MAX_REDDIT_VELOCITY : ℚ := 10000

def MAX_YOUTUBE_TRACTION : ℚ := 50000

def GOOGLE_TRENDS_Z_SCORE_RANGE : ℚ := 6

def TRAFFIC_SPIKE_THRESHOLD : ℚ := 50

def REDDIT_WEIGHT : ℚ := 33 / 100

def YOUTUBE_WEIGHT : ℚ := 33 / 100

def GOOGLE_TRENDS_WEIGHT : ℚ := 34 / 100

def SIMILARWEB_BONUS_MULTIPLIER : ℚ := 3 / 2

def SIGNAL_PRESENCE_THRESHOLD : ℚ := 50

/-- Python `round(q, 2)` (tie-breaking mode immaterial for the inputs used). -/
def pyRound2 (q : ℚ) : ℚ := ((Int.floor (q * 100 + 1 / 2) : ℤ) : ℚ) / 100

/-! Momentum combiner, from `app/scoring/momentum.py`. -/

/-- Signal count of `calculate_momentum_score` (lines 83-88): each of the
three continuous scores counts when strictly above the threshold, plus the
traffic-spike boolean. -/
def strictSignals (r y g : ℚ) (spike : Bool) : ℕ :=
  (if SIGNAL_PRESENCE_THRESHOLD < r then 1 else 0) +
  (if SIGNAL_PRESENCE_THRESHOLD < y then 1 else 0) +
  (if SIGNAL_PRESENCE_THRESHOLD < g then 1 else 0) +
  (if spike then 1 else 0)

/-- Confidence ladder of the strict combiner (lines 90-97). -/
def confidenceStrict (s : ℕ) : String :=
  if 4 ≤ s then "high" else if 2 ≤ s then "medium" else if 1 ≤ s then "low" else "unknown"

/-- Strict combiner `calculate_momentum_score` (momentum.py lines 17-99). -/
def calculate_momentum_score (reddit_velocity youtube_traction google_trends_spike : ℚ)
    (similarweb_traffic_spike : Bool) : ℚ × String :=
  let base_score := reddit_velocity * REDDIT_WEIGHT + youtube_traction * YOUTUBE_WEIGHT +
    google_trends_spike * GOOGLE_TRENDS_WEIGHT
  let final_score := if similarweb_traffic_spike then
    base_score * SIMILARWEB_BONUS_MULTIPLIER else base_score
  (pyRound2 final_score,
   confidenceStrict (strictSignals reddit_velocity youtube_traction google_trends_spike
     similarweb_traffic_spike))

/-- Presence indicator used by the safe combiner (lines 173-178):
`x is not None and x > THRESHOLD`. -/
def optSignal (o : Option ℚ) : ℕ :=
  match o with
  | some v => if SIGNAL_PRESENCE_THRESHOLD < v then 1 else 0
  | none => 0

def safeSignals (r y g : Option ℚ) (spike : Bool) : ℕ :=
  optSignal r + optSignal y + optSignal g + (if spike then 1 else 0)

/-- Confidence ladder of the safe combiner (lines 181-188): the `high`
threshold is 3, one lower than the strict combiner. -/
def confidenceSafe (s : ℕ) : String :=
  if 3 ≤ s then "high" else if 2 ≤ s then "medium" else if 1 ≤ s then "low" else "unknown"

/-- The `(score, weight)` contribution of one optional platform
(momentum.py lines 148-154). -/
def optPair (o : Option ℚ) (w : ℚ) : List (ℚ × ℚ) :=
  match o with
  | some v => [(v, w)]
  | none => []

/-- Safe combiner `calculate_momentum_score_safe` (momentum.py lines 102-190):
collect present `(score, weight)` pairs, short-circuit to `(0, unknown)` when
none, otherwise renormalize weights by their sum. -/
def calculate_momentum_score_safe (reddit_velocity youtube_traction google_trends_spike : Option ℚ)
    (similarweb_traffic_spike : Bool) : ℚ × String :=
  let available := optPair reddit_velocity REDDIT_WEIGHT ++ optPair youtube_traction YOUTUBE_WEIGHT
    ++ optPair google_trends_spike GOOGLE_TRENDS_WEIGHT
  if available.length = 0 then (0, "unknown")
  else
    let total_weight := (available.map Prod.snd).sum
    let base_score := (available.map (fun p => p.1 * (p.2 / total_weight))).sum
    let final_score := if similarweb_traffic_spike then
      base_score * SIMILARWEB_BONUS_MULTIPLIER else base_score
    (pyRound2 final_score,
     confidenceSafe (safeSignals reddit_velocity youtube_traction google_trends_spike
       similarweb_traffic_spike))

/-! Normalizers, from `app/scoring/normalizer.py`.  Each is parametric in
`lg : ℤ → ℚ`, the embedding of `math.log10` on positive integers. -/

/-- `normalize_reddit_score` (normalizer.py lines 17-79). -/
def normalize_reddit_score (lg : ℤ → ℚ) (score : ℤ) (hours_since_post : ℚ)
    (subreddit_size : ℤ) : ℚ :=
  let safe_hours : ℚ := max hours_since_post 1
  let safe_subreddit_size : ℤ := max subreddit_size 1
  let safe_score : ℤ := max score 0
  let velocity : ℚ := (safe_score : ℚ) / safe_hours
  let authority_weight : ℚ := lg safe_subreddit_size
  let raw_score : ℚ := velocity * authority_weight
  pyRound2 (min 100 (raw_score / MAX_REDDIT_VELOCITY * 100))

/-- `normalize_youtube_traction` (normalizer.py lines 82-151).  Note that the
code clamps `views` to at least 1 and uses the clamped value in the velocity
numerator as well as the engagement denominator. -/
def normalize_youtube_traction (lg : ℤ → ℚ) (views : ℤ) (hours_since_publish : ℚ)
    (likes : ℤ) (channel_subs : ℤ) : ℚ :=
  let safe_hours : ℚ := max hours_since_publish 1
  let safe_views : ℤ := max views 1
  let safe_likes : ℤ := max likes 0
  let safe_channel_subs : ℤ := max channel_subs 1
  let velocity : ℚ := (safe_views : ℚ) / safe_hours
  let engagement_rate : ℚ := (safe_likes : ℚ) / (safe_views : ℚ)
  let authority_weight : ℚ := lg safe_channel_subs
  let raw_score : ℚ := velocity * engagement_rate * authority_weight
  pyRound2 (min 100 (raw_score / MAX_YOUTUBE_TRACTION * 100))

/-- The formula C7 states for `normalize_youtube_traction`, verbatim: the
velocity numerator is the raw `views`, not the clamped `max(views, 1)`. -/
def youtubeTractionClaimed (lg : ℤ → ℚ) (views : ℤ) (hours_since_publish : ℚ)
    (likes : ℤ) (channel_subs : ℤ) : ℚ :=
  let velocity : ℚ := (views : ℚ) / max hours_since_publish 1
  let engagement_rate : ℚ := (likes : ℚ) / ((max views 1 : ℤ) : ℚ)
  let authority_weight : ℚ := lg (max channel_subs 1)
  pyRound2 (min 100 (velocity * engagement_rate * authority_weight / MAX_YOUTUBE_TRACTION * 100))

/-- `statistics.mean` on a list of ints (exact value). -/
def pyMean (l : List ℤ) : ℚ := (l.sum : ℚ) / (l.length : ℚ)

/-- Sample variance, the square of `statistics.stdev` (exact value). -/
def sampleVariance (l : List ℤ) : ℚ :=
  ((l.map (fun x => ((x : ℚ) - pyMean l) ^ 2)).sum) / ((l.length : ℚ) - 1)

/-- `calculate_google_trends_spike` (normalizer.py lines 154-231), parametric
in `sq`, the embedding of the square root used by `statistics.stdev`.  With
at least 2 history points `statistics.mean`/`stdev` cannot raise, so the
`except StatisticsError` fallback (line 229) is unreachable. -/
def calculate_google_trends_spike (sq : ℚ → ℚ) (current_interest : ℤ)
    (seven_day_history : List ℤ) : ℚ :=
  if seven_day_history.length < 2 then ((min 100 (max 0 current_interest) : ℤ) : ℚ)
  else
    let mean := pyMean seven_day_history
    let stddev := sq (sampleVariance seven_day_history)
    if stddev = 0 then 50
    else
      let z_score := ((current_interest : ℚ) - mean) / stddev
      let normalized := (z_score + 3) / GOOGLE_TRENDS_Z_SCORE_RANGE * 100
      pyRound2 (min 100 (max 0 normalized))

/-- `detect_similarweb_traffic_spike` (normalizer.py lines 234-279). -/
def detect_similarweb_traffic_spike (traffic_change_percentage : Option ℚ) : Bool :=
  match traffic_change_percentage with
  | none => false
  | some change => decide (TRAFFIC_SPIKE_THRESHOLD < change)

/-- Integer base-10 logarithm, cast to `ℚ`.  It agrees with `math.log10`
exactly at powers of ten; concrete evaluations below only use such inputs. -/
def log10P (n : ℤ) : ℚ := ((Nat.log 10 n.toNat : ℕ) : ℚ)

/-! Retry decorator, from `app/collectors/retry.py`.  The wrapped function is
modelled by its behaviour on each attempt number, `f : ℕ → Except ℕ α`
(`Except.error e` = the call raises exception `e`; exception types are
numbered and `retryable e` says whether the type is in the decorator's
`exceptions` tuple).  The trace records how many times `func` was called,
the `asyncio.sleep` durations in order, and the final outcome. -/

inductive RetryOutcome (α : Type) where
  | returned : Option α → RetryOutcome α
  | raised : ℕ → RetryOutcome α
deriving DecidableEq, Repr

structure RetryTrace (α : Type) where
  calls : ℕ
  sleeps : List ℚ
  outcome : RetryOutcome α
deriving DecidableEq, Repr

/-- The `for attempt in range(1, max_attempts + 1)` loop of the wrapper
(retry.py lines 45-101), over the list of remaining attempt numbers. -/
def retryAux {α : Type} (f : ℕ → Except ℕ α) (retryable : ℕ → Bool) (b : ℚ)
    (max_attempts : ℕ) : List ℕ → ℕ → List ℚ → RetryTrace α
  | [], calls, sleeps => ⟨calls, sleeps.reverse, RetryOutcome.returned none⟩
  | attempt :: rest, calls, sleeps =>
    match f attempt with
    | Except.ok v => ⟨calls + 1, sleeps.reverse, RetryOutcome.returned (some v)⟩
    | Except.error e =>
      if retryable e then
        if attempt < max_attempts then
          retryAux f retryable b max_attempts rest (calls + 1) (b ^ attempt :: sleeps)
        else
          retryAux f retryable b max_attempts rest (calls + 1) sleeps
      else
        ⟨calls + 1, sleeps.reverse, RetryOutcome.raised e⟩

/-- `retry_with_backoff(max_attempts, backoff_base, exceptions)` applied to a
function `f` (retry.py lines 11-104). -/
def retry_with_backoff {α : Type} (max_attempts : ℕ) (backoff_base : ℚ)
    (retryable : ℕ → Bool) (f : ℕ → Except ℕ α) : RetryTrace α :=
  retryAux f retryable backoff_base max_attempts (List.range' 1 max_attempts) 0 []

/-! Collection result envelope, from `app/collectors/base.py`.  The opaque
per-item dictionaries are modelled by numeric ids (`ℕ`); `data` holds
`Option` entries since the dataclass declares `List[Optional[Dict]]`. -/

structure CollectionResult where
  source : String
  data : List (Option ℕ)
  success_rate : ℚ
  total_calls : ℕ
  successful_calls : ℕ
  failed_calls : ℕ
  errors : List String
  duration_seconds : ℚ
deriving DecidableEq, Repr

/-- The dataclass constructor including `__post_init__` (base.py lines 47-51):
the success rate is recomputed from the counters only when `total_calls > 0`
and the passed `success_rate` equals `0.0`; any other passed value, including
the `-1.0` sentinel the collectors use, is kept verbatim. -/
def CollectionResult.pInit (source : String) (data : List (Option ℕ)) (success_rate : ℚ)
    (total_calls successful_calls failed_calls : ℕ) (errors : List String)
    (duration_seconds : ℚ) : CollectionResult :=
  { source := source, data := data,
    success_rate := if 0 < total_calls ∧ success_rate = 0 then
      (successful_calls : ℚ) / (total_calls : ℚ) else success_rate,
    total_calls := total_calls, successful_calls := successful_calls,
    failed_calls := failed_calls, errors := errors,
    duration_seconds := duration_seconds }

/-! Orchestrator, from `app/collectors/orchestrator.py`.  One orchestration
run is determined by the per-collector outcomes of `asyncio.gather(...,
return_exceptions=True)`: each collector either returned a `CollectionResult`
(`Except.ok`) or raised, leaving the exception text (`Except.error`).
Collector names are assumed distinct, as in the repository, so the Python
dict is an association list in collector order. -/

/-- The result-processing loop of `collect_all` (orchestrator.py lines
94-143): a crashed collector gets a synthesized fully-failed entry built with
the `-1.0` sentinel, a returning collector contributes its result as-is. -/
def collectAllProcess (outcomes : List (String × Except String CollectionResult))
    (topics : List String) : List (String × CollectionResult) :=
  outcomes.map (fun p =>
    match p.2 with
    | Except.error msg =>
      (p.1, CollectionResult.pInit p.1 [] (-1) topics.length 0 topics.length [msg] 0)
    | Except.ok r => (p.1, r))

/-- `CollectionOrchestrator.collect_all` (orchestrator.py lines 45-167).
After the processing loop, line 149 evaluates the eager `dict.get` default
`CollectionResult("reddit", [])`; the dataclass constructor requires the
`success_rate` argument, so every call raises `TypeError` there, before
`return results` at line 167 is reached. -/
def collect_all (outcomes : List (String × Except String CollectionResult))
    (topics : List String) : Except String (List (String × CollectionResult)) :=
  let _results := collectAllProcess outcomes topics
  Except.error "TypeError: missing 1 required positional argument success_rate"

/-! YouTube collector batch loop, from `app/collectors/youtube_collector.py`
lines 277-404.  `_fetch_latest_video` is modelled by its per-channel outcome:
a video record, `None` after exhausted retries, or a raised
`QuotaExceededException`. -/

inductive FetchOutcome where
  | video : ℕ → FetchOutcome
  | failed : FetchOutcome
  | quotaExceeded : FetchOutcome
deriving DecidableEq, Repr

structure YTState where
  all_videos : List ℕ
  successful_calls : ℕ
  failed_calls : ℕ
  errors : List String
deriving DecidableEq, Repr

/-- The `for channel_id in topics` loop (lines 332-372): only successful
fetches are appended to `all_videos`; a failed fetch only bumps
`failed_calls` and records an error; `QuotaExceededException` marks all
unattempted channels failed and breaks. -/
def ytLoop (fetch : String → FetchOutcome) (total : ℕ) :
    List String → YTState → YTState
  | [], s => s
  | channel_id :: rest, s =>
    match fetch channel_id with
    | FetchOutcome.video v =>
      ytLoop fetch total rest
        { s with all_videos := s.all_videos ++ [v],
                 successful_calls := s.successful_calls + 1 }
    | FetchOutcome.failed =>
      ytLoop fetch total rest
        { s with failed_calls := s.failed_calls + 1,
                 errors := s.errors ++ ["Failed to collect from channel " ++ channel_id] }
    | FetchOutcome.quotaExceeded =>
      { s with
        failed_calls := s.failed_calls + (total - s.successful_calls - s.failed_calls),
        errors := s.errors ++ ["YouTube quota exceeded, stopped collection"] }

/-- The successful video records of a run, in input order. -/
def ytVids (fetch : String → FetchOutcome) (topics : List String) : List ℕ :=
  topics.filterMap (fun ch =>
    match fetch ch with
    | FetchOutcome.video v => some v
    | _ => none)

/-- Count of channels whose fetch returned `None`. -/
def ytFails (fetch : String → FetchOutcome) (topics : List String) : ℕ :=
  topics.countP (fun ch => decide (fetch ch = FetchOutcome.failed))

/-- `YouTubeCollector.collect` (lines 277-404): quota pre-check at 10000,
then the per-channel loop, then the result assembled with the `-1.0`
sentinel (wall-clock duration modelled as 0). -/
def YouTubeCollector.collect (fetch : String → FetchOutcome) (current_usage : ℕ)
    (topics : List String) : CollectionResult :=
  if 10000 ≤ current_usage then
    CollectionResult.pInit "youtube" [] (-1) topics.length 0 topics.length
      ["YouTube quota exceeded"] 0
  else
    let s := ytLoop fetch topics.length topics ⟨[], 0, 0, []⟩
    CollectionResult.pInit "youtube" (s.all_videos.map some) (-1) topics.length
      s.successful_calls s.failed_calls s.errors 0

/-! Daily quota limiter, from `app/collectors/rate_limiters.py` lines
82-243.  The persisted `(api_name, date)` counter row is `Option ℤ`
(`none` = no row yet); the context body either completes (`Except.ok`) or
raises exception `e` (`Except.error e`). -/

inductive ConsumeOutcome where
  | runtimeErrorRaised : ConsumeOutcome
  | completed : ConsumeOutcome
  | bodyRaised : ℕ → ConsumeOutcome
deriving DecidableEq, Repr

/-- `get_usage_today` (lines 120-135): the row value, or 0 when absent. -/
def getUsageToday (row : Option ℤ) : ℤ := row.getD 0

/-- `increment_usage` (lines 137-181): atomic upsert,
`INSERT units ON CONFLICT DO UPDATE SET units_used = units_used + units`. -/
def incrementUsage (row : Option ℤ) (units : ℤ) : Option ℤ :=
  match row with
  | none => some units
  | some u => some (u + units)

/-- `can_consume` (lines 183-193). -/
def canConsume (daily_limit : ℤ) (row : Option ℤ) (units : ℤ) : Bool :=
  decide (getUsageToday row + units ≤ daily_limit)

/-- One full `async with limiter.consume(units)` execution
(`ConsumeContext`, lines 204-243): `__aenter__` raises `RuntimeError` when
`can_consume` fails, leaving the row untouched; `__aexit__` increments the
counter exactly when the body raised no exception.  Returns the outcome and
the final row. -/
def consumeRun (daily_limit : ℤ) (row : Option ℤ) (units : ℤ)
    (body : Except ℕ Unit) : ConsumeOutcome × Option ℤ :=
  if canConsume daily_limit row units then
    match body with
    | Except.ok _ => (ConsumeOutcome.completed, incrementUsage row units)
    | Except.error e => (ConsumeOutcome.bodyRaised e, row)
  else
    (ConsumeOutcome.runtimeErrorRaised, row)

/-! Helper lemmas. -/

lemma pyRound2_eq (q : ℚ) (k : ℤ) (h1 : (k : ℚ) ≤ q * 100 + 1 / 2)
    (h2 : q * 100 + 1 / 2 < (k : ℚ) + 1) : pyRound2 q = (k : ℚ) / 100 := by
  unfold pyRound2
  rw [show Int.floor (q * 100 + 1 / 2) = k from Int.floor_eq_iff.mpr ⟨h1, h2⟩]

lemma pyRound2_div100 (k : ℤ) : pyRound2 ((k : ℚ) / 100) = (k : ℚ) / 100 := by
  have h : ((k : ℚ) / 100) * 100 = (k : ℚ) := by
    field_simp
  exact pyRound2_eq ((k : ℚ) / 100) k (by rw [h]; linarith) (by rw [h]; linarith)

lemma pyRound2_nonneg (q : ℚ) (h : 0 ≤ q) : 0 ≤ pyRound2 q := by
  unfold pyRound2
  have h0 : (0 : ℤ) ≤ Int.floor (q * 100 + 1 / 2) := by
    apply Int.floor_nonneg.mpr
    linarith
  have h1 : (0 : ℚ) ≤ ((Int.floor (q * 100 + 1 / 2) : ℤ) : ℚ) := by
    exact_mod_cast h0
  linarith

lemma pyRound2_le_100 (q : ℚ) (h : q ≤ 100) : pyRound2 q ≤ 100 := by
  unfold pyRound2
  have h0 : Int.floor (q * 100 + 1 / 2) < 10001 := by
    rw [Int.floor_lt]
    push_cast
    linarith
  have h1 : ((Int.floor (q * 100 + 1 / 2) : ℤ) : ℚ) ≤ 10000 := by
    exact_mod_cast Int.lt_add_one_iff.mp h0
  linarith

lemma safeSignals_all_some (r y g : ℚ) (b : Bool) :
    safeSignals (some r) (some y) (some g) b = strictSignals r y g b := rfl

lemma confidence_eq_of_ne_three (s : ℕ) (h : s ≠ 3) :
    confidenceSafe s = confidenceStrict s := by
  unfold confidenceSafe confidenceStrict
  split_ifs <;> first | rfl | omega

lemma safe_base_all_some (r y g : ℚ) (b : Bool) :
    (calculate_momentum_score_safe (some r) (some y) (some g) b).1 =
      (calculate_momentum_score r y g b).1 := by
  unfold calculate_momentum_score_safe calculate_momentum_score optPair
  norm_num [REDDIT_WEIGHT, YOUTUBE_WEIGHT, GOOGLE_TRENDS_WEIGHT]
  cases b <;> · congr 1; ring_nf

/-- C4: with all three continuous signals absent the safe combiner
short-circuits to `(0.0, unknown)` for either traffic-spike value; the 1.5x
multiplier is not applied and the spike never raises the confidence. -/
theorem momentum_safe_all_absent (b : Bool) :
    calculate_momentum_score_safe none none none b = (0, "unknown") := by
  cases b <;> rfl

/-- C3: with YouTube absent, the safe combiner returns the two-signal
renormalized weighted average `X*(0.33/0.67) + Y*(0.34/0.67)` rounded to two
decimals; the absent signal is excluded from numerator and denominator. -/
theorem momentum_safe_two_signal_renormalized (X Y : ℚ)
    (hX0 : 0 ≤ X) (hX1 : X ≤ 100) (hY0 : 0 ≤ Y) (hY1 : Y ≤ 100) :
    (calculate_momentum_score_safe (some X) none (some Y) false).1 =
      pyRound2 (X * (33 / 67) + Y * (34 / 67)) := by
  unfold calculate_momentum_score_safe optPair
  norm_num [REDDIT_WEIGHT, GOOGLE_TRENDS_WEIGHT]

theorem momentum_safe_two_signal_witness :
    (calculate_momentum_score_safe (some 75) none (some 80) false).1 =
      pyRound2 (75 * (33 / 67) + 80 * (34 / 67)) :=
  momentum_safe_two_signal_renormalized 75 80 (by norm_num) (by norm_num)
    (by norm_num) (by norm_num)

/-- C2 counterexample: at `reddit = youtube = google = 60`, `spike = False`
(three signals present) the safe combiner returns confidence `high` while the
strict combiner returns `medium`, so the outputs are not exactly equal. -/
theorem momentum_safe_strict_confidence_diff :
    calculate_momentum_score_safe (some 60) (some 60) (some 60) false = (60, "high") ∧
    calculate_momentum_score 60 60 60 false = (60, "medium") ∧
    (((60 : ℚ), "high") ≠ ((60 : ℚ), "medium")) := by
  have h60 : pyRound2 60 = 60 := by
    have h := pyRound2_div100 6000
    norm_num at h
    exact h
  refine ⟨?_, ?_, by simp⟩
  · unfold calculate_momentum_score_safe optPair safeSignals optSignal confidenceSafe
      SIGNAL_PRESENCE_THRESHOLD
    norm_num [REDDIT_WEIGHT, YOUTUBE_WEIGHT, GOOGLE_TRENDS_WEIGHT]
    exact h60
  · unfold calculate_momentum_score strictSignals confidenceStrict
      SIGNAL_PRESENCE_THRESHOLD
    norm_num [REDDIT_WEIGHT, YOUTUBE_WEIGHT, GOOGLE_TRENDS_WEIGHT]
    exact h60

/-- C2 amended: for scores in [0,100] the safe combiner over all three
signals yields exactly the strict numeric score, and the same confidence
label whenever the number of present signals is not 3; with exactly 3 of the
4 signals present the safe combiner says `high` where the strict one says
`medium` (its `high` threshold is one lower). -/
theorem momentum_safe_equals_strict_all_present (r y g : ℚ) (b : Bool)
    (hr0 : 0 ≤ r) (hr1 : r ≤ 100) (hy0 : 0 ≤ y) (hy1 : y ≤ 100)
    (hg0 : 0 ≤ g) (hg1 : g ≤ 100) :
    (calculate_momentum_score_safe (some r) (some y) (some g) b).1 =
      (calculate_momentum_score r y g b).1 ∧
    (strictSignals r y g b ≠ 3 →
      (calculate_momentum_score_safe (some r) (some y) (some g) b).2 =
        (calculate_momentum_score r y g b).2) ∧
    (strictSignals r y g b = 3 →
      (calculate_momentum_score_safe (some r) (some y) (some g) b).2 = "high" ∧
      (calculate_momentum_score r y g b).2 = "medium") := by
  have hsafe2 : (calculate_momentum_score_safe (some r) (some y) (some g) b).2 =
      confidenceSafe (strictSignals r y g b) := rfl
  have hstrict2 : (calculate_momentum_score r y g b).2 =
      confidenceStrict (strictSignals r y g b) := rfl
  refine ⟨safe_base_all_some r y g b, ?_, ?_⟩
  · intro h
    rw [hsafe2, hstrict2, confidence_eq_of_ne_three _ h]
  · intro h
    rw [hsafe2, hstrict2, h]
    constructor
    · rfl
    · rfl

theorem momentum_safe_equals_strict_witness :
    (calculate_momentum_score_safe (some 60) (some 70) (some 40) true).1 =
      (calculate_momentum_score 60 70 40 true).1 :=
  (momentum_safe_equals_strict_all_present 60 70 40 true (by norm_num) (by norm_num)
    (by norm_num) (by norm_num) (by norm_num) (by norm_num)).1

lemma log10P_nonneg (n : ℤ) : 0 ≤ log10P n := by
  unfold log10P
  positivity

lemma log10P_ten : log10P 10 = 1 := by
  have h : Nat.log 10 10 = 1 :=
    Nat.log_eq_of_pow_le_of_lt_pow (by norm_num : 10 ^ 1 ≤ 10)
      (by norm_num : (10 : ℕ) < 10 ^ (1 + 1))
  unfold log10P
  rw [show (10 : ℤ).toNat = 10 from rfl, h]
  norm_num

lemma pyRound2_twentieth : pyRound2 (1 / 20) = 1 / 20 := by
  have h := pyRound2_div100 5
  norm_num at h
  exact h

lemma pyRound2_zero : pyRound2 0 = 0 := by
  have h := pyRound2_div100 0
  norm_num at h
  exact h

/-- C7 counterexample: at views = 0, hours = 4, likes = 100, subs = 10 the
code returns 0.05 (the clamp makes the velocity numerator 1, not 0) while the
formula stated by the claim, with velocity = views/hours, yields 0. -/
theorem youtube_traction_clamped_views_diff :
    normalize_youtube_traction log10P 0 4 100 10 = 1 / 20 ∧
    youtubeTractionClaimed log10P 0 4 100 10 = 0 ∧
    ((1 : ℚ) / 20 ≠ 0) := by
  refine ⟨?_, ?_, by norm_num⟩
  · simp only [normalize_youtube_traction, MAX_YOUTUBE_TRACTION]
    norm_num [log10P_ten, pyRound2_twentieth]
  · simp only [youtubeTractionClaimed, MAX_YOUTUBE_TRACTION]
    norm_num [pyRound2_zero]

/-- C7 amended: for views ≥ 0 and likes ≥ 0, `normalize_youtube_traction`
returns `min(100, velocity * engagement * authority / 50000 * 100)` rounded
to 2 decimals, where velocity = `max(views,1) / max(hours,1)` (the views
numerator is clamped to at least 1, unlike the claimed `views/hours`),
engagement = `likes / max(views,1)` and authority = `log10(max(subs,1))`. -/
theorem normalize_youtube_traction_formula (lg : ℤ → ℚ) (views : ℤ) (hours : ℚ)
    (likes : ℤ) (subs : ℤ) (hv : 0 ≤ views) (hl : 0 ≤ likes) :
    normalize_youtube_traction lg views hours likes subs =
      pyRound2 (min 100 (((max views 1 : ℤ) : ℚ) / max hours 1 *
        ((likes : ℚ) / ((max views 1 : ℤ) : ℚ)) * lg (max subs 1) /
        MAX_YOUTUBE_TRACTION * 100)) := by
  simp only [normalize_youtube_traction]
  rw [max_eq_left hl]

theorem normalize_youtube_traction_formula_witness :
    normalize_youtube_traction log10P 1000 2 100 1000 =
      pyRound2 (min 100 (((max (1000 : ℤ) 1 : ℤ) : ℚ) / max (2 : ℚ) 1 *
        (((100 : ℤ) : ℚ) / ((max (1000 : ℤ) 1 : ℤ) : ℚ)) * log10P (max (1000 : ℤ) 1) /
        MAX_YOUTUBE_TRACTION * 100)) :=
  normalize_youtube_traction_formula log10P 1000 2 100 1000 (by norm_num) (by norm_num)

/-- C9: for every integer/rational input, including zero, negative and very
large values, the three continuous normalizers return a value in [0, 100]
(for every log10/sqrt embedding with log10 nonnegative on inputs at least 1,
the only analytic fact the code relies on), and the traffic-spike detector
returns a boolean which is `False` on absent input; all four functions are
total by construction. -/
theorem normalizers_total_and_bounded (lg : ℤ → ℚ) (sq : ℚ → ℚ)
    (hlg : ∀ n : ℤ, 1 ≤ n → 0 ≤ lg n) :
    (∀ (score : ℤ) (hours : ℚ) (size : ℤ),
      0 ≤ normalize_reddit_score lg score hours size ∧
      normalize_reddit_score lg score hours size ≤ 100) ∧
    (∀ (views : ℤ) (hours : ℚ) (likes subs : ℤ),
      0 ≤ normalize_youtube_traction lg views hours likes subs ∧
      normalize_youtube_traction lg views hours likes subs ≤ 100) ∧
    (∀ (current : ℤ) (history : List ℤ),
      0 ≤ calculate_google_trends_spike sq current history ∧
      calculate_google_trends_spike sq current history ≤ 100) ∧
    detect_similarweb_traffic_spike none = false := by
  refine ⟨?_, ?_, ?_, rfl⟩
  · intro score hours size
    simp only [normalize_reddit_score]
    have hH : (0 : ℚ) ≤ max hours 1 := le_trans zero_le_one (le_max_right hours 1)
    have hS : (0 : ℚ) ≤ ((max score 0 : ℤ) : ℚ) := by
      exact_mod_cast le_max_right score 0
    have hA : 0 ≤ lg (max size 1) := hlg _ (le_max_right size 1)
    have harg : 0 ≤ ((max score 0 : ℤ) : ℚ) / max hours 1 * lg (max size 1) /
        MAX_REDDIT_VELOCITY * 100 := by
      apply mul_nonneg _ (by norm_num)
      apply div_nonneg (mul_nonneg (div_nonneg hS hH) hA)
      unfold MAX_REDDIT_VELOCITY
      norm_num
    exact ⟨pyRound2_nonneg _ (le_min (by norm_num) harg),
      pyRound2_le_100 _ (min_le_left _ _)⟩
  · intro views hours likes subs
    simp only [normalize_youtube_traction]
    have hH : (0 : ℚ) ≤ max hours 1 := le_trans zero_le_one (le_max_right hours 1)
    have hV : (0 : ℚ) ≤ ((max views 1 : ℤ) : ℚ) := by
      have : (0 : ℤ) ≤ max views 1 := le_trans zero_le_one (le_max_right views 1)
      exact_mod_cast this
    have hL : (0 : ℚ) ≤ ((max likes 0 : ℤ) : ℚ) := by
      exact_mod_cast le_max_right likes 0
    have hA : 0 ≤ lg (max subs 1) := hlg _ (le_max_right subs 1)
    have harg : 0 ≤ ((max views 1 : ℤ) : ℚ) / max hours 1 *
        (((max likes 0 : ℤ) : ℚ) / ((max views 1 : ℤ) : ℚ)) * lg (max subs 1) /
        MAX_YOUTUBE_TRACTION * 100 := by
      apply mul_nonneg _ (by norm_num)
      apply div_nonneg
      · exact mul_nonneg (mul_nonneg (div_nonneg hV hH) (div_nonneg hL hV)) hA
      · unfold MAX_YOUTUBE_TRACTION
        norm_num
    exact ⟨pyRound2_nonneg _ (le_min (by norm_num) harg),
      pyRound2_le_100 _ (min_le_left _ _)⟩
  · intro current history
    simp only [calculate_google_trends_spike]
    split_ifs with h1 h2
    · constructor
      · exact_mod_cast le_min (by norm_num) (le_max_left (0 : ℤ) current)
      · exact_mod_cast min_le_left (100 : ℤ) (max 0 current)
    · norm_num
    · exact ⟨pyRound2_nonneg _ (le_min (by norm_num) (le_max_left _ _)),
        pyRound2_le_100 _ (min_le_left _ _)⟩

theorem normalizers_total_and_bounded_witness :
    (0 ≤ normalize_reddit_score log10P 5000 2 1000000 ∧
      normalize_reddit_score log10P 5000 2 1000000 ≤ 100) ∧
    (0 ≤ normalize_youtube_traction log10P 250000 6 8000 500000 ∧
      normalize_youtube_traction log10P 250000 6 8000 500000 ≤ 100) ∧
    (0 ≤ calculate_google_trends_spike (fun _ => 0) 85 [30, 35, 40, 45, 50, 60, 85] ∧
      calculate_google_trends_spike (fun _ => 0) 85 [30, 35, 40, 45, 50, 60, 85] ≤ 100) ∧
    detect_similarweb_traffic_spike none = false := by
  have h := normalizers_total_and_bounded log10P (fun _ => 0) (fun n _ => log10P_nonneg n)
  exact ⟨h.1 5000 2 1000000, h.2.1 250000 6 8000 500000,
    h.2.2.1 85 [30, 35, 40, 45, 50, 60, 85], h.2.2.2⟩

lemma retryAux_all_retryable_fail {α : Type} (f : ℕ → Except ℕ α)
    (retryable : ℕ → Bool) (b : ℚ) (N : ℕ)
    (hf : ∀ k, ∃ e, f k = Except.error e ∧ retryable e = true) :
    ∀ (n s calls : ℕ) (sleeps : List ℚ), s + n = N + 1 →
      retryAux f retryable b N (List.range' s n) calls sleeps =
        ⟨calls + n, sleeps.reverse ++ (List.range' s (n - 1)).map (fun a => b ^ a),
         RetryOutcome.returned (none : Option α)⟩ := by
  intro n
  induction n with
  | zero =>
    intro s calls sleeps hsn
    simp [retryAux]
  | succ m ih =>
    intro s calls sleeps hsn
    obtain ⟨e, hfe, hre⟩ := hf s
    rw [List.range'_succ]
    simp only [retryAux, hfe, hre, if_true]
    rcases Nat.eq_zero_or_pos m with hm | hm
    · subst hm
      have hsN : ¬ s < N := by omega
      rw [if_neg hsN]
      simp [retryAux]
    · have hsN : s < N := by omega
      rw [if_pos hsN]
      rw [ih (s + 1) (calls + 1) (b ^ s :: sleeps) (by omega)]
      have hm1 : m - 1 + 1 = m := by omega
      congr 1
      · omega
      · rw [show (m + 1 - 1 : ℕ) = m from by omega, ← hm1, List.range'_succ, hm1]
        simp [List.map_cons, List.append_assoc]

/-- C6 counterexample: with max_attempts = 3 and backoff_base = 2 and an
always-raising retryable function, the sleeps performed are 2s and 4s only —
not the 2s, 4s, 8s sequence the claim references, because no delay follows
the final attempt. -/
theorem retry_three_attempts_sleeps :
    (retry_with_backoff 3 (2 : ℚ) (fun _ => true)
      (fun _ => (Except.error 0 : Except ℕ Unit))).sleeps = [2, 4] ∧
    ([2, 4] : List ℚ) ≠ [2, 4, 8] := by
  constructor
  · have h := retryAux_all_retryable_fail (fun _ => (Except.error 0 : Except ℕ Unit))
      (fun _ => true) (2 : ℚ) 3 (fun k => ⟨0, rfl, rfl⟩) 3 1 0 [] (by omega)
    unfold retry_with_backoff
    rw [h]
    norm_num [List.range']
  · simp

/-- C6 amended: a function that always raises a retryable exception is called
exactly N times, with a sleep of base^attempt seconds after each non-final
attempt (attempts 1 .. N-1) and none after the final attempt, and the wrapper
returns None instead of raising; an exception whose type is outside the
retryable set propagates immediately after a single call with no sleeps. -/
theorem retry_with_backoff_spec {α : Type} (N : ℕ) (b : ℚ) (hN : 1 ≤ N)
    (retryable : ℕ → Bool) (f : ℕ → Except ℕ α) :
    ((∀ k, ∃ e, f k = Except.error e ∧ retryable e = true) →
      retry_with_backoff N b retryable f =
        ⟨N, (List.range' 1 (N - 1)).map (fun a => b ^ a),
         RetryOutcome.returned none⟩) ∧
    (∀ e, f 1 = Except.error e → retryable e = false →
      retry_with_backoff N b retryable f = ⟨1, [], RetryOutcome.raised e⟩) := by
  constructor
  · intro hf
    unfold retry_with_backoff
    rw [retryAux_all_retryable_fail f retryable b N hf N 1 0 [] (by omega)]
    simp
  · intro e hfe hre
    obtain ⟨m, hm⟩ : ∃ m, N = m + 1 := ⟨N - 1, by omega⟩
    subst hm
    unfold retry_with_backoff
    rw [List.range'_succ]
    simp [retryAux, hfe, hre]

theorem retry_with_backoff_spec_witness :
    retry_with_backoff 3 (2 : ℚ) (fun _ => true)
        (fun _ => (Except.error 0 : Except ℕ Unit)) =
      ⟨3, (List.range' 1 2).map (fun a => (2 : ℚ) ^ a), RetryOutcome.returned none⟩ ∧
    retry_with_backoff 3 (2 : ℚ) (fun _ => false)
        (fun _ => (Except.error 7 : Except ℕ Unit)) =
      ⟨1, [], RetryOutcome.raised 7⟩ :=
  ⟨(retry_with_backoff_spec 3 2 (by omega) (fun _ => true)
      (fun _ => (Except.error 0 : Except ℕ Unit))).1 (fun k => ⟨0, rfl, rfl⟩),
   (retry_with_backoff_spec 3 2 (by omega) (fun _ => false)
      (fun _ => (Except.error 7 : Except ℕ Unit))).2 7 rfl rfl⟩

/-- C5: the `-1.0` "auto-calculate" sentinel the collectors pass (youtube
collector line 381, orchestrator line 115) is NOT recomputed by
`__post_init__`, which only recomputes when the passed value equals `0.0`:
the YouTube result for 2 channels with 1 success keeps `success_rate = -1.0`
instead of the ratio `0.5` its own tests assert. -/
theorem post_init_keeps_sentinel :
    (CollectionResult.pInit "youtube" [] (-1) 2 1 1 [] 0).success_rate = -1 ∧
    (CollectionResult.pInit "youtube" [] (-1) 2 1 1 [] 0).success_rate ≠ 1 / 2 := by
  have h : (CollectionResult.pInit "youtube" [] (-1) 2 1 1 [] 0).success_rate = -1 := by
    simp only [CollectionResult.pInit]
    norm_num
  exact ⟨h, by rw [h]; norm_num⟩

/-- C1: `collect_all` never returns its map: with one crashing collector and
one well-behaved collector over one topic, the call ends in the `TypeError`
raised by the eager `dict.get` default `CollectionResult("reddit", [])` at
line 149; moreover even the internally-built map gives the crashed collector
`success_rate = -1.0` (the sentinel survives `__post_init__`), not `0.0`. -/
theorem collect_all_crashes_with_typeerror :
    collect_all [("bad", Except.error "boom"),
        ("good", Except.ok ⟨"good", [some 5], 1, 1, 1, 0, [], 0⟩)] ["t"] =
      Except.error "TypeError: missing 1 required positional argument success_rate" ∧
    collectAllProcess [("bad", Except.error "boom"),
        ("good", Except.ok ⟨"good", [some 5], 1, 1, 1, 0, [], 0⟩)] ["t"] =
      [("bad", ⟨"bad", [], -1, 1, 0, 1, ["boom"], 0⟩),
       ("good", ⟨"good", [some 5], 1, 1, 1, 0, [], 0⟩)] ∧
    ((-1 : ℚ) ≠ 0) := by
  refine ⟨rfl, ?_, by norm_num⟩
  simp only [collectAllProcess, List.map_cons, List.map_nil, CollectionResult.pInit]
  norm_num

lemma ytLoop_no_quota (fetch : String → FetchOutcome) (total : ℕ) :
    ∀ (topics : List String) (s : YTState),
      (∀ ch ∈ topics, fetch ch ≠ FetchOutcome.quotaExceeded) →
      (ytLoop fetch total topics s).all_videos = s.all_videos ++ ytVids fetch topics ∧
      (ytLoop fetch total topics s).successful_calls =
        s.successful_calls + (ytVids fetch topics).length ∧
      (ytLoop fetch total topics s).failed_calls = s.failed_calls + ytFails fetch topics := by
  intro topics
  induction topics with
  | nil =>
    intro s h
    simp [ytLoop, ytVids, ytFails]
  | cons ch rest ih =>
    intro s h
    have hch := h ch (by simp)
    have hrest : ∀ c ∈ rest, fetch c ≠ FetchOutcome.quotaExceeded := by
      intro c hc
      exact h c (by simp [hc])
    cases hfc : fetch ch with
    | video v =>
      obtain ⟨h1, h2, h3⟩ := ih _ hrest
      simp only [ytLoop, hfc]
      refine ⟨?_, ?_, ?_⟩
      · rw [h1]
        simp [ytVids, List.filterMap_cons, hfc]
      · rw [h2]
        simp only [ytVids, List.filterMap_cons, hfc]
        simp
        omega
      · rw [h3]
        simp [ytFails, List.countP_cons, hfc]
    | failed =>
      obtain ⟨h1, h2, h3⟩ := ih _ hrest
      simp only [ytLoop, hfc]
      refine ⟨?_, ?_, ?_⟩
      · rw [h1]
        simp [ytVids, List.filterMap_cons, hfc]
      · rw [h2]
        simp [ytVids, List.filterMap_cons, hfc]
      · rw [h3]
        simp only [ytFails, List.countP_cons, hfc]
        simp
        omega
    | quotaExceeded =>
      exact absurd hfc hch

lemma ytVids_fails_length (fetch : String → FetchOutcome) :
    ∀ topics : List String, (∀ ch ∈ topics, fetch ch ≠ FetchOutcome.quotaExceeded) →
      (ytVids fetch topics).length + ytFails fetch topics = topics.length := by
  intro topics
  induction topics with
  | nil =>
    intro h
    simp [ytVids, ytFails]
  | cons ch rest ih =>
    intro h
    have hch := h ch (by simp)
    have hrest : ∀ c ∈ rest, fetch c ≠ FetchOutcome.quotaExceeded := by
      intro c hc
      exact h c (by simp [hc])
    have := ih hrest
    cases hfc : fetch ch with
    | video v =>
      simp only [ytVids, ytFails, List.filterMap_cons, List.countP_cons, hfc] at this ⊢
      simp at this ⊢
      omega
    | failed =>
      simp only [ytVids, ytFails, List.filterMap_cons, List.countP_cons, hfc] at this ⊢
      simp at this ⊢
      omega
    | quotaExceeded =>
      exact absurd hfc hch

/-- C8 counterexample: for topics `[channel1, channel2]` where only channel1
succeeds, the returned data is `[video1]` — length 1, not 2: the failed item
is dropped, not recorded as a None placeholder. -/
theorem youtube_collect_drops_failed :
    (YouTubeCollector.collect
        (fun ch => if ch = "channel1" then FetchOutcome.video 1 else FetchOutcome.failed)
        100 ["channel1", "channel2"]).data = [some 1] ∧
    (YouTubeCollector.collect
        (fun ch => if ch = "channel1" then FetchOutcome.video 1 else FetchOutcome.failed)
        100 ["channel1", "channel2"]).data.length ≠
      (["channel1", "channel2"] : List String).length := by
  have hdata : (YouTubeCollector.collect
      (fun ch => if ch = "channel1" then FetchOutcome.video 1 else FetchOutcome.failed)
      100 ["channel1", "channel2"]).data = [some 1] := rfl
  refine ⟨hdata, ?_⟩
  rw [hdata]
  simp

/-- C8 amended: absent an early quota abort, the returned data sequence is
exactly the successful items, in input order; failed items are counted in
`failed_calls` and `errors` but are omitted from `data` (no None
placeholder), so `data` has length `successful_calls`, not the input
length. -/
theorem youtube_collect_data_successes_only (fetch : String → FetchOutcome)
    (usage : ℕ) (topics : List String) (hu : usage < 10000)
    (hq : ∀ ch ∈ topics, fetch ch ≠ FetchOutcome.quotaExceeded) :
    (YouTubeCollector.collect fetch usage topics).data = (ytVids fetch topics).map some ∧
    (YouTubeCollector.collect fetch usage topics).data.length =
      (YouTubeCollector.collect fetch usage topics).successful_calls ∧
    (YouTubeCollector.collect fetch usage topics).successful_calls +
      (YouTubeCollector.collect fetch usage topics).failed_calls = topics.length := by
  have hnot : ¬ 10000 ≤ usage := by omega
  obtain ⟨h1, h2, h3⟩ := ytLoop_no_quota fetch topics.length topics ⟨[], 0, 0, []⟩ hq
  have hlen := ytVids_fails_length fetch topics hq
  simp only [YouTubeCollector.collect, hnot, if_false, CollectionResult.pInit]
  refine ⟨?_, ?_, ?_⟩
  · rw [h1]
    simp
  · rw [h1, h2]
    simp
  · rw [h2, h3]
    simpa using hlen

theorem youtube_collect_data_successes_only_witness :
    (YouTubeCollector.collect (fun _ => FetchOutcome.video 9) 100 ["a", "b"]).data =
      (ytVids (fun _ => FetchOutcome.video 9) ["a", "b"]).map some ∧
    (YouTubeCollector.collect (fun _ => FetchOutcome.video 9) 100 ["a", "b"]).data.length =
      (YouTubeCollector.collect (fun _ => FetchOutcome.video 9) 100 ["a", "b"]).successful_calls ∧
    (YouTubeCollector.collect (fun _ => FetchOutcome.video 9) 100 ["a", "b"]).successful_calls +
      (YouTubeCollector.collect (fun _ => FetchOutcome.video 9) 100 ["a", "b"]).failed_calls =
      (["a", "b"] : List String).length :=
  youtube_collect_data_successes_only (fun _ => FetchOutcome.video 9) 100 ["a", "b"]
    (by omega) (fun ch _ => by simp)

/-- C10: one `consume(units)` execution is atomic on the persisted counter:
entering raises RuntimeError and leaves the row untouched exactly when usage
+ units would exceed the daily limit; the counter grows by exactly `units`
when and only when the body completes, and any exception in the body leaves
the persisted usage unchanged and propagates. -/
theorem consume_context_atomic (L : ℤ) (row : Option ℤ) (units : ℤ)
    (body : Except ℕ Unit) :
    (L < getUsageToday row + units →
      consumeRun L row units body = (ConsumeOutcome.runtimeErrorRaised, row)) ∧
    (getUsageToday row + units ≤ L → body = Except.ok () →
      consumeRun L row units body =
        (ConsumeOutcome.completed, some (getUsageToday row + units))) ∧
    (getUsageToday row + units ≤ L → ∀ e, body = Except.error e →
      consumeRun L row units body = (ConsumeOutcome.bodyRaised e, row)) := by
  refine ⟨?_, ?_, ?_⟩
  · intro h
    simp only [consumeRun, canConsume, decide_eq_true_eq]
    rw [if_neg (by omega)]
  · intro h hb
    subst hb
    simp only [consumeRun, canConsume, decide_eq_true_eq]
    rw [if_pos h]
    cases row with
    | none => simp [incrementUsage, getUsageToday]
    | some u => simp [incrementUsage, getUsageToday]
  · intro h e hb
    subst hb
    simp only [consumeRun, canConsume, decide_eq_true_eq]
    rw [if_pos h]

theorem consume_context_atomic_witness :
    consumeRun 10 (some 3) 4 (Except.ok ()) = (ConsumeOutcome.completed, some 7) ∧
    consumeRun 10 (some 9) 4 (Except.ok ()) = (ConsumeOutcome.runtimeErrorRaised, some 9) ∧
    consumeRun 10 (some 3) 4 (Except.error 5) = (ConsumeOutcome.bodyRaised 5, some 3) := by
  refine ⟨?_, ?_, ?_⟩
  · have h := (consume_context_atomic 10 (some 3) 4 (Except.ok ())).2.1
      (by norm_num [getUsageToday]) rfl
    simpa [getUsageToday] using h
  · exact (consume_context_atomic 10 (some 9) 4 (Except.ok ())).1
      (by norm_num [getUsageToday])
  · exact (consume_context_atomic 10 (some 3) 4 (Except.error 5)).2.2
      (by norm_num [getUsageToday]) 5 rfl

end TrendMonitor
